import Mathlib

/-!
Shallow embedding of `src/hostpwrctl.cpp` (YADRO-KNS/obmc-yadro-hostpwrctl).

The program issues one power-state transition request over D-Bus and waits,
inside a single-threaded event loop, for property-change notifications that
confirm the transition, bounded by a single-shot 30-second timer.

The embedding models:
* the string constants of the source file;
* `trimClassName` (over `List Char`, mirroring `std::string::rfind`/`substr`);
* the global state store (`currentChassisState`, `expectedChassisState`,
  `currentHostState`, `expectedHostState`) as a record `PwrState`;
* `exitOnExpectedState` and the notification handler `onPropertiesChanged`;
* the five dispatched actions and `getAction`;
* the event loop as a list of events (notifications / the timer firing)
  processed in arrival order, each step possibly requesting loop exit;
* `getService` / `getProperty` / `setProperty` with the transport calls
  passed in as explicit `CallResult` oracles, mirroring the try/catch
  error swallowing of the source.
-/

namespace Hostpwrctl

/-! ## Constants (hostpwrctl.cpp lines 17-48) -/

def confirmationTime : Nat := 30

def chassisPath : String := "/xyz/openbmc_project/state/chassis0"

def chassisIface : String := "xyz.openbmc_project.State.Chassis"

def chassisState : String := "CurrentPowerState"

def chassisStateOn : String := "xyz.openbmc_project.State.Chassis.PowerState.On"

def chassisStateOff : String := "xyz.openbmc_project.State.Chassis.PowerState.Off"

def chassisTransition : String := "RequestedPowerTransition"

def chassisTransitionOff : String := "xyz.openbmc_project.State.Chassis.Transition.Off"

def hostPath : String := "/xyz/openbmc_project/state/host0"

def hostIface : String := "xyz.openbmc_project.State.Host"

def hostState : String := "CurrentHostState"

def hostStateOn : String := "xyz.openbmc_project.State.Host.HostState.Running"

def hostStateOff : String := "xyz.openbmc_project.State.Host.HostState.Off"

def hostTransition : String := "RequestedHostTransition"

def hostTransitionOn : String := "xyz.openbmc_project.State.Host.Transition.On"

def hostTransitionOff : String := "xyz.openbmc_project.State.Host.Transition.Off"

def hostTransitionReboot : String := "xyz.openbmc_project.State.Host.Transition.Reboot"

def EXIT_SUCCESS : Nat := 0

def EXIT_FAILURE : Nat := 1

/-! ## trimClassName (lines 61-69)

`value.rfind('.')` returns the index of the last `'.'`, or `npos` when there
is none; the source returns `value.substr(last + 1)` only when that index is
neither `npos` nor `0`.  `lastDotIdx` plays the role of `rfind('.')`, with
`none` for `npos`. -/

def lastDotIdx : List Char → Option Nat
  | [] => none
  | c :: cs =>
    match lastDotIdx cs with
    | some i => some (i + 1)
    | none => if c = '.' then some 0 else none

def trimClassName (value : List Char) : List Char :=
  match lastDotIdx value with
  | some last => if last ≠ 0 then value.drop (last + 1) else value
  | none => value

def trimClassNameS (value : String) : String :=
  String.mk (trimClassName value.data)

/-! ## State store (lines 50-51)

The four global `std::string`s; default-constructed `std::string` is `""`,
and an unset expected target is represented by `""`. -/

structure PwrState where
  currentChassisState : String
  expectedChassisState : String
  currentHostState : String
  expectedHostState : String
  deriving DecidableEq, Repr

/-! ## exitOnExpectedState (lines 181-189)

Requests `systemEvent.exit(EXIT_SUCCESS)` exactly when both expected values
are non-empty and both current values equal them.  The returned
`Option Nat` is the exit code requested from the event loop, `none` when the
loop keeps running. -/

def exitOnExpectedState (s : PwrState) : Option Nat :=
  if !s.expectedHostState.isEmpty && !s.expectedChassisState.isEmpty &&
      s.expectedHostState == s.currentHostState &&
      s.expectedChassisState == s.currentChassisState then
    some EXIT_SUCCESS
  else
    none

/-- Spec-side completion predicate: the expected target is set (both
components non-empty) and both current states equal the expected ones
(stated chassis-first, as the spec words it). -/
def CompletionCond (s : PwrState) : Prop :=
  s.expectedChassisState ≠ "" ∧ s.expectedHostState ≠ "" ∧
    s.currentChassisState = s.expectedChassisState ∧
    s.currentHostState = s.expectedHostState

instance (s : PwrState) : Decidable (CompletionCond s) := by
  unfold CompletionCond; infer_instance

/-! ## onPropertiesChanged (lines 196-226)

A notification carries an interface name and a map from changed property
names to their new values (modelled as an association list; `std::map::find`
is `List.lookup`).  The handler updates at most one current-state field,
prints the trimmed new value, and runs `exitOnExpectedState`. -/

structure StepOut where
  st : PwrState
  logs : List String
  exitCode : Option Nat
  deriving DecidableEq, Repr

def onPropertiesChanged (iface : String) (data : List (String × String))
    (s : PwrState) : StepOut :=
  if iface == chassisIface then
    match data.lookup chassisState with
    | some v =>
      let s' := { s with currentChassisState := v }
      { st := s'
        logs := ["Current Chassis State: " ++ trimClassNameS v]
        exitCode := exitOnExpectedState s' }
    | none => { st := s, logs := [], exitCode := none }
  else if iface == hostIface then
    match data.lookup hostState with
    | some v =>
      let s' := { s with currentHostState := v }
      { st := s'
        logs := ["Current Host State: " ++ trimClassNameS v]
        exitCode := exitOnExpectedState s' }
    | none => { st := s, logs := [], exitCode := none }
  else
    { st := s, logs := [], exitCode := none }

/-! ## The five actions (lines 231-317)

Each action is deferred and runs once when the event loop starts.  A write
is a `setProperty(path, iface, property, value)` invocation, recorded as the
4-tuple of its arguments. -/

structure ActOut where
  st : PwrState
  writes : List (String × String × String × String)
  logs : List String
  exitCode : Option Nat
  deriving DecidableEq, Repr

def switchHostPowerOn (s : PwrState) : ActOut :=
  if s.currentChassisState != chassisStateOn then
    { st := { s with expectedHostState := hostStateOn
                     expectedChassisState := chassisStateOn }
      writes := [(hostPath, hostIface, hostTransition, hostTransitionOn)]
      logs := ["Power up signal was sent to host, waiting for system start."]
      exitCode := none }
  else
    { st := s, writes := []
      logs := ["System is already up."]
      exitCode := some EXIT_SUCCESS }

def switchHostPowerOff (s : PwrState) : ActOut :=
  if s.currentChassisState != chassisStateOff then
    { st := { s with expectedHostState := hostStateOff
                     expectedChassisState := chassisStateOff }
      writes := [(hostPath, hostIface, hostTransition, hostTransitionOff)]
      logs := ["Shutdown signal was sent to host, waiting for system down."]
      exitCode := none }
  else
    { st := s, writes := []
      logs := ["System is already down."]
      exitCode := some EXIT_SUCCESS }

def switchChassisPowerOff (s : PwrState) : ActOut :=
  if s.currentChassisState != chassisStateOff then
    { st := { s with expectedHostState := hostStateOff
                     expectedChassisState := chassisStateOff }
      writes := [(chassisPath, chassisIface, chassisTransition, chassisTransitionOff)]
      logs := ["Shutdown signal was sent to chassis, waiting for system down."]
      exitCode := none }
  else
    { st := s, writes := []
      logs := ["System is already down."]
      exitCode := some EXIT_SUCCESS }

def resetHostPower (s : PwrState) : ActOut :=
  if s.currentChassisState != chassisStateOff then
    { st := { s with expectedHostState := hostStateOn
                     expectedChassisState := chassisStateOn }
      writes := [(hostPath, hostIface, hostTransition, hostTransitionReboot)]
      logs := ["Reboot signal was sent to host, waiting for system down and start again."]
      exitCode := none }
  else
    { st := s, writes := []
      logs := ["Chassis is off, reboot is impossible."]
      exitCode := some EXIT_SUCCESS }

def showPowerStatus (s : PwrState) : ActOut :=
  { st := s, writes := []
    logs := ["Current Chassis state: " ++ trimClassNameS s.currentChassisState,
             "Current Host state: " ++ trimClassNameS s.currentHostState]
    exitCode := some 0 }

/-! ## Dispatch (getAction, lines 326-350) and main (lines 372-385) -/

inductive ActionKind where
  | powerOn
  | chassisOff
  | hostOff
  | hostReboot
  | status
  deriving DecidableEq, Repr

def getAction (command : String) : Option ActionKind :=
  if command == "on" then some .powerOn
  else if command == "off" then some .chassisOff
  else if command == "soft" then some .hostOff
  else if command == "reboot" then some .hostReboot
  else if command == "status" then some .status
  else none

def runAction : ActionKind → PwrState → ActOut
  | .powerOn => switchHostPowerOn
  | .chassisOff => switchChassisPowerOff
  | .hostOff => switchHostPowerOff
  | .hostReboot => resetHostPower
  | .status => showPowerStatus

/-- Outcome of `main`'s argument handling, before the event loop: either
usage is printed and the process exits with the given failure code (the
loop never starts), or the loop starts with the dispatched action. -/
inductive MainOutcome where
  | usageFailure (code : Nat)
  | startLoop (a : ActionKind)
  deriving DecidableEq, Repr

def mainDispatch (argv : List String) : MainOutcome :=
  match argv with
  | [_, command] =>
    match getAction command with
    | some a => .startLoop a
    | none => .usageFailure EXIT_FAILURE
  | _ => .usageFailure EXIT_FAILURE

/-! ## The event loop (lines 387-414)

After the deferred action has run (without requesting exit), the loop
processes events strictly in arrival order: property-change notifications,
and the single-shot `Timer` firing after `confirmationTime` seconds.  The
timer callback prints a diagnostic naming the configured duration and
requests `exit(EXIT_FAILURE)`. -/

inductive Event where
  | notify (iface : String) (data : List (String × String))
  | timerFire
  deriving DecidableEq, Repr

def stepEvent (s : PwrState) : Event → StepOut
  | .notify iface data => onPropertiesChanged iface data s
  | .timerFire =>
    { st := s
      logs := ["Unable to confirm operation success within timeout period (" ++
                toString confirmationTime ++ " s)."]
      exitCode := some EXIT_FAILURE }

/-- Process events in order until one requests loop exit; `none` means no
event so far has requested exit (the loop is still waiting). -/
def runEvents (s : PwrState) : List Event → Option (Nat × PwrState)
  | [] => none
  | e :: es =>
    let r := stepEvent s e
    match r.exitCode with
    | some code => some (code, r.st)
    | none => runEvents r.st es

/-- The state reached after processing a list of events (ignoring exit
requests), used to phrase what the timer sees when it fires last. -/
def foldEvents (s : PwrState) : List Event → PwrState
  | [] => s
  | e :: es => foldEvents (stepEvent s e).st es

/-- One whole run: seed the current states (line 411-412), run the deferred
action, then process events until an exit is requested. -/
def runProgram (a : ActionKind) (seedChassis seedHost : String)
    (events : List Event) : Option (Nat × PwrState) :=
  let s0 : PwrState :=
    { currentChassisState := seedChassis, expectedChassisState := ""
      currentHostState := seedHost, expectedHostState := "" }
  let r := runAction a s0
  match r.exitCode with
  | some code => some (code, r.st)
  | none => runEvents r.st events

/-! ## Property client (getService lines 79-106, getProperty 117-143,
setProperty 153-176)

The remote transport calls are passed in as explicit oracles: `CallResult.ok`
is a call that returned, `CallResult.err` one that raised `SdBusError` (the
`catch` branch).  The functions are total: no error is ever propagated to
the caller. -/

inductive CallResult (α : Type) where
  | ok (value : α)
  | err (message : String)
  deriving DecidableEq, Repr

/-- `GetObject` mapper call result type: service name to supported
interfaces, as `std::map` iterated from `begin()`. -/
abbrev MapperReply := List (String × List String)

def getService (mapperCall : CallResult MapperReply) : String × List String :=
  match mapperCall with
  | .ok services =>
    match services with
    | [] => ("", [])
    | (name, _) :: _ => (name, [])
  | .err msg => ("", ["Error occurred during the object mapper call: " ++ msg])

def getProperty (mapperCall : CallResult MapperReply)
    (getCall : CallResult String) : String × List String :=
  let r := getService mapperCall
  if r.1.isEmpty then ("", r.2)
  else
    match getCall with
    | .ok v => (v, r.2)
    | .err msg => ("", r.2 ++ ["Error occurred during get property request, " ++ msg])

/-- `setProperty`: the `Bool` reports whether the remote `Set` call took
effect; on a failed service lookup the call is never issued, on a transport
error it is logged and the function returns normally. -/
def setProperty (mapperCall : CallResult MapperReply)
    (setCall : CallResult Unit) : Bool × List String :=
  let r := getService mapperCall
  if r.1.isEmpty then (false, r.2)
  else
    match setCall with
    | .ok _ => (true, r.2)
    | .err msg => (false, r.2 ++ ["Error occurred during set property request, " ++ msg])

/-! ## Helper lemmas -/

/-- Position `i` holds the last `'.'` of `l`: there is a `'.'` there and no
`'.'` strictly later. -/
def IsLastDot (l : List Char) (i : Nat) : Prop :=
  l[i]? = some '.' ∧ ∀ j, i < j → l[j]? ≠ some '.'

theorem lastDotIdx_eq_none_iff (l : List Char) : lastDotIdx l = none ↔ '.' ∉ l := by
  induction l with
  | nil => simp [lastDotIdx]
  | cons c cs ih =>
    rw [lastDotIdx]
    cases h : lastDotIdx cs with
    | some i =>
      have hmem : '.' ∈ cs := by
        by_contra hn
        rw [ih.mpr hn] at h
        cases h
      simp [List.mem_cons, hmem]
    | none =>
      have hcs : '.' ∉ cs := ih.mp h
      by_cases hc : c = '.'
      · simp [hc]
      · simp [List.mem_cons, hcs, Ne.symm hc, hc]

theorem lastDotIdx_isLastDot {l : List Char} {i : Nat}
    (h : lastDotIdx l = some i) : IsLastDot l i := by
  induction l generalizing i with
  | nil => cases h
  | cons c cs ih =>
    rw [lastDotIdx] at h
    cases hcs : lastDotIdx cs with
    | some k =>
      rw [hcs] at h
      obtain rfl : k + 1 = i := by injection h
      obtain ⟨h1, h2⟩ := ih hcs
      refine ⟨by simpa using h1, ?_⟩
      intro j hj
      cases j with
      | zero => omega
      | succ j' =>
        have : k < j' := by omega
        simpa using h2 j' this
    | none =>
      rw [hcs] at h
      by_cases hc : c = '.'
      · rw [if_pos hc] at h
        obtain rfl : 0 = i := by injection h
        refine ⟨by simp [hc], ?_⟩
        intro j hj
        cases j with
        | zero => omega
        | succ j' =>
          simp only [List.getElem?_cons_succ]
          intro hcontra
          exact (lastDotIdx_eq_none_iff cs).mp hcs (List.getElem?_mem hcontra)
      · rw [if_neg hc] at h
        cases h

theorem isLastDot_unique {l : List Char} {i j : Nat}
    (hi : IsLastDot l i) (hj : IsLastDot l j) : i = j := by
  rcases Nat.lt_trichotomy i j with h | h | h
  · exact absurd hj.1 (hi.2 j h)
  · exact h
  · exact absurd hi.1 (hj.2 i h)

theorem isLastDot_lastDotIdx {l : List Char} {i : Nat}
    (h : IsLastDot l i) : lastDotIdx l = some i := by
  have hmem : '.' ∈ l := List.getElem?_mem h.1
  cases hk : lastDotIdx l with
  | none => exact absurd hmem ((lastDotIdx_eq_none_iff l).mp hk)
  | some k => exact congrArg some (isLastDot_unique (lastDotIdx_isLastDot hk) h)

theorem dot_not_mem_drop {l : List Char} {i : Nat}
    (h : lastDotIdx l = some i) : '.' ∉ l.drop (i + 1) := by
  intro hmem
  obtain ⟨j, hjlt, hj⟩ := List.getElem_of_mem hmem
  have hj' : (l.drop (i + 1))[j]? = some '.' := by
    rw [List.getElem?_eq_getElem hjlt, hj]
  rw [List.getElem?_drop] at hj'
  exact (lastDotIdx_isLastDot h).2 (i + 1 + j) (by omega) hj'

theorem trimClassName_idem (l : List Char) :
    trimClassName (trimClassName l) = trimClassName l := by
  cases h : lastDotIdx l with
  | none =>
    have h1 : trimClassName l = l := by rw [trimClassName, h]
    rw [h1]; exact h1
  | some i =>
    by_cases hi : i = 0
    · subst hi
      have h1 : trimClassName l = l := by rw [trimClassName, h]; simp
      rw [h1]; exact h1
    · have h1 : trimClassName l = l.drop (i + 1) := by
        rw [trimClassName, h]; simp [hi]
      have h2 : lastDotIdx (l.drop (i + 1)) = none :=
        (lastDotIdx_eq_none_iff _).mpr (dot_not_mem_drop h)
      rw [h1, trimClassName, h2]

/-- Equation for the handler on the chassis interface. -/
theorem onPropertiesChanged_chassis_eq (data : List (String × String)) (s : PwrState) :
    onPropertiesChanged chassisIface data s =
      (match data.lookup chassisState with
      | some v =>
        { st := { s with currentChassisState := v }
          logs := ["Current Chassis State: " ++ trimClassNameS v]
          exitCode := exitOnExpectedState { s with currentChassisState := v } }
      | none => { st := s, logs := [], exitCode := none }) := rfl

/-- Equation for the handler on the host interface. -/
theorem onPropertiesChanged_host_eq (data : List (String × String)) (s : PwrState) :
    onPropertiesChanged hostIface data s =
      (match data.lookup hostState with
      | some v =>
        { st := { s with currentHostState := v }
          logs := ["Current Host State: " ++ trimClassNameS v]
          exitCode := exitOnExpectedState { s with currentHostState := v } }
      | none => { st := s, logs := [], exitCode := none }) := rfl

/-- Equation for the handler on any other interface. -/
theorem onPropertiesChanged_other_eq (iface : String) (data : List (String × String))
    (s : PwrState) (h1 : iface ≠ chassisIface) (h2 : iface ≠ hostIface) :
    onPropertiesChanged iface data s = ⟨s, [], none⟩ := by
  simp [onPropertiesChanged, h1, h2]

theorem string_isEmpty_false_iff (t : String) : t.isEmpty = false ↔ t ≠ "" := by
  constructor
  · intro h he
    subst he
    exact absurd h (by decide)
  · intro h
    cases he : t.isEmpty
    · rfl
    · exact absurd ((String.isEmpty_iff t).mp he) h

theorem exitOnExpectedState_eq_some_iff (s : PwrState) :
    exitOnExpectedState s = some EXIT_SUCCESS ↔ CompletionCond s := by
  rw [exitOnExpectedState]
  split_ifs with h
  · simp only [Bool.and_eq_true, Bool.not_eq_true', beq_iff_eq] at h
    obtain ⟨⟨⟨hh, hc⟩, he⟩, hd⟩ := h
    exact iff_of_true rfl
      ⟨(string_isEmpty_false_iff _).mp hc, (string_isEmpty_false_iff _).mp hh,
        hd.symm, he.symm⟩
  · simp only [Bool.and_eq_true, Bool.not_eq_true', beq_iff_eq, not_and] at h
    constructor
    · intro hx
      cases hx
    · intro hc
      obtain ⟨h1, h2, h3, h4⟩ := hc
      exact absurd h3.symm
        (h ⟨⟨(string_isEmpty_false_iff _).mpr h2, (string_isEmpty_false_iff _).mpr h1⟩,
          h4.symm⟩)

theorem exitOnExpectedState_code {s : PwrState} {c : Nat}
    (h : exitOnExpectedState s = some c) : c = EXIT_SUCCESS := by
  rw [exitOnExpectedState] at h
  split_ifs at h
  exact (Option.some.inj h).symm

theorem exitOnExpectedState_eq_none {s : PwrState} (h : ¬ CompletionCond s) :
    exitOnExpectedState s = none := by
  cases hx : exitOnExpectedState s with
  | none => rfl
  | some c =>
    have hc := exitOnExpectedState_code hx
    subst hc
    exact absurd ((exitOnExpectedState_eq_some_iff s).mp hx) h

theorem runEvents_cons (s : PwrState) (e : Event) (es : List Event) :
    runEvents s (e :: es) =
      (match (stepEvent s e).exitCode with
      | some code => some (code, (stepEvent s e).st)
      | none => runEvents (stepEvent s e).st es) := rfl

theorem onPropertiesChanged_code {iface : String} {data : List (String × String)}
    {s : PwrState} {c : Nat}
    (h : (onPropertiesChanged iface data s).exitCode = some c) : c = EXIT_SUCCESS := by
  by_cases h1 : iface = chassisIface
  · subst h1
    rw [onPropertiesChanged_chassis_eq] at h
    cases hl : data.lookup chassisState with
    | some v => simp only [hl] at h; exact exitOnExpectedState_code h
    | none => simp only [hl] at h; cases h
  · by_cases h2 : iface = hostIface
    · subst h2
      rw [onPropertiesChanged_host_eq] at h
      cases hl : data.lookup hostState with
      | some v => simp only [hl] at h; exact exitOnExpectedState_code h
      | none => simp only [hl] at h; cases h
    · rw [onPropertiesChanged_other_eq iface data s h1 h2] at h
      cases h

theorem onPropertiesChanged_success_completion {iface : String}
    {data : List (String × String)} {s : PwrState}
    (h : (onPropertiesChanged iface data s).exitCode = some EXIT_SUCCESS) :
    CompletionCond (onPropertiesChanged iface data s).st := by
  by_cases h1 : iface = chassisIface
  · subst h1
    rw [onPropertiesChanged_chassis_eq] at h ⊢
    cases hl : data.lookup chassisState with
    | some v =>
      simp only [hl] at h ⊢
      exact (exitOnExpectedState_eq_some_iff _).mp h
    | none => simp only [hl] at h; cases h
  · by_cases h2 : iface = hostIface
    · subst h2
      rw [onPropertiesChanged_host_eq] at h ⊢
      cases hl : data.lookup hostState with
      | some v =>
        simp only [hl] at h ⊢
        exact (exitOnExpectedState_eq_some_iff _).mp h
      | none => simp only [hl] at h; cases h
    · rw [onPropertiesChanged_other_eq iface data s h1 h2] at h
      cases h

theorem onPropertiesChanged_chassis_iff (data : List (String × String))
    (s : PwrState) (v : String) (hl : data.lookup chassisState = some v) :
    ((onPropertiesChanged chassisIface data s).exitCode = some EXIT_SUCCESS ↔
      CompletionCond (onPropertiesChanged chassisIface data s).st) := by
  rw [onPropertiesChanged_chassis_eq]
  simp only [hl]
  exact exitOnExpectedState_eq_some_iff _

theorem onPropertiesChanged_host_iff (data : List (String × String))
    (s : PwrState) (v : String) (hl : data.lookup hostState = some v) :
    ((onPropertiesChanged hostIface data s).exitCode = some EXIT_SUCCESS ↔
      CompletionCond (onPropertiesChanged hostIface data s).st) := by
  rw [onPropertiesChanged_host_eq]
  simp only [hl]
  exact exitOnExpectedState_eq_some_iff _

theorem runEvents_success {s : PwrState} {events : List Event} {s' : PwrState}
    (h : runEvents s events = some (EXIT_SUCCESS, s')) :
    CompletionCond s' ∧ ∃ iface data, Event.notify iface data ∈ events := by
  induction events generalizing s with
  | nil => cases h
  | cons e es ih =>
    rw [runEvents_cons] at h
    cases hc : (stepEvent s e).exitCode with
    | none =>
      rw [hc] at h
      obtain ⟨h1, iface, data, hm⟩ := ih h
      exact ⟨h1, iface, data, List.mem_cons_of_mem _ hm⟩
    | some code =>
      rw [hc] at h
      have hpair := Option.some.inj h
      have hcode : code = EXIT_SUCCESS := congrArg Prod.fst hpair
      have hst : (stepEvent s e).st = s' := congrArg Prod.snd hpair
      subst hcode
      cases e with
      | timerFire => simp [stepEvent, EXIT_FAILURE, EXIT_SUCCESS] at hc
      | notify iface data =>
        refine ⟨?_, iface, data, List.mem_cons_self _ _⟩
        rw [← hst]
        exact onPropertiesChanged_success_completion hc

theorem runEvents_failure {s : PwrState} {events : List Event} {code : Nat}
    {s' : PwrState} (h : runEvents s events = some (code, s'))
    (hne : code ≠ EXIT_SUCCESS) :
    code = EXIT_FAILURE ∧ Event.timerFire ∈ events := by
  induction events generalizing s with
  | nil => cases h
  | cons e es ih =>
    rw [runEvents_cons] at h
    cases hc : (stepEvent s e).exitCode with
    | none =>
      rw [hc] at h
      obtain ⟨h1, h2⟩ := ih h
      exact ⟨h1, List.mem_cons_of_mem _ h2⟩
    | some c =>
      rw [hc] at h
      have hpair := Option.some.inj h
      have hcode : c = code := congrArg Prod.fst hpair
      subst hcode
      cases e with
      | timerFire => exact ⟨(Option.some.inj hc).symm, List.mem_cons_self _ _⟩
      | notify iface data => exact absurd (onPropertiesChanged_code hc) hne

theorem runEvents_timeout {s : PwrState} {events : List Event}
    (h : runEvents s events = none) :
    runEvents s (events ++ [Event.timerFire]) =
      some (EXIT_FAILURE, foldEvents s events) := by
  induction events generalizing s with
  | nil => rfl
  | cons e es ih =>
    rw [runEvents_cons] at h
    rw [List.cons_append, runEvents_cons]
    cases hc : (stepEvent s e).exitCode with
    | some c => rw [hc] at h; cases h
    | none => rw [hc] at h; exact ih h

/-! ## Claim theorems -/

def sampleSt : PwrState := ⟨chassisStateOff, "", hostStateOff, ""⟩

/-- C3: the completion check `exitOnExpectedState` requests successful
termination exactly when the expected target is set (both expected fields
non-empty) and both current states equal the expected ones; in every other
state it requests nothing, so the run keeps going. -/
theorem claim3_completion_check (s : PwrState) :
    (exitOnExpectedState s = some EXIT_SUCCESS ↔ CompletionCond s) ∧
    (¬ CompletionCond s → exitOnExpectedState s = none) :=
  ⟨exitOnExpectedState_eq_some_iff s, fun h => exitOnExpectedState_eq_none h⟩

/-- C3 witness: at a fully matching store the check reports complete, and at
a store with no expected target installed it reports pending. -/
theorem claim3_completion_check_witness :
    exitOnExpectedState ⟨chassisStateOn, chassisStateOn, hostStateOn, hostStateOn⟩ =
      some EXIT_SUCCESS ∧
    exitOnExpectedState ⟨chassisStateOn, "", hostStateOn, ""⟩ = none :=
  ⟨(claim3_completion_check _).1.mpr ⟨by decide, by decide, rfl, rfl⟩,
    (claim3_completion_check _).2 (fun hc => hc.1 rfl)⟩

/-- C9: `trimClassName` returns the substring after the last `'.'` when that
dot sits at a position greater than zero, returns the value unchanged when
the value has no `'.'` or its last `'.'` is at position zero, and is
consequently idempotent. -/
theorem claim9_trimClassName (v : List Char) :
    (∀ i, IsLastDot v i → 0 < i → trimClassName v = v.drop (i + 1)) ∧
    ('.' ∉ v → trimClassName v = v) ∧
    (IsLastDot v 0 → trimClassName v = v) ∧
    trimClassName (trimClassName v) = trimClassName v := by
  refine ⟨?_, ?_, ?_, trimClassName_idem v⟩
  · intro i hi hpos
    simp only [trimClassName, isLastDot_lastDotIdx hi]
    rw [if_pos (Nat.pos_iff_ne_zero.mp hpos)]
  · intro h
    simp only [trimClassName, (lastDotIdx_eq_none_iff v).mpr h]
  · intro h
    simp only [trimClassName, isLastDot_lastDotIdx h]
    simp

/-- C9 witness: on `"ab.cd"` the last dot is at position 2 and the name is
trimmed to `"cd"`; `"value"` has no dot and is returned unchanged. -/
theorem claim9_trimClassName_witness :
    trimClassName (String.data "ab.cd") = String.data "cd" ∧
    trimClassName (String.data "value") = String.data "value" := by
  constructor
  · rw [(claim9_trimClassName (String.data "ab.cd")).1 2
      (lastDotIdx_isLastDot (by decide)) (by decide)]
    decide
  · exact (claim9_trimClassName (String.data "value")).2.1 (by decide)

/-- C4: a notification whose changed-property map misses the property of
interest for its interface (CurrentPowerState on the chassis interface,
CurrentHostState on the host interface) leaves the store unchanged, prints
nothing and requests no termination — in particular the completion check is
never consulted — and a notification for any other interface likewise
changes nothing. -/
theorem claim4_partial_notification (s : PwrState) (iface : String)
    (data : List (String × String)) :
    (data.lookup chassisState = none →
      onPropertiesChanged chassisIface data s = ⟨s, [], none⟩) ∧
    (data.lookup hostState = none →
      onPropertiesChanged hostIface data s = ⟨s, [], none⟩) ∧
    (iface ≠ chassisIface → iface ≠ hostIface →
      onPropertiesChanged iface data s = ⟨s, [], none⟩) := by
  refine ⟨?_, ?_, fun h1 h2 => onPropertiesChanged_other_eq iface data s h1 h2⟩
  · intro h
    rw [onPropertiesChanged_chassis_eq]
    simp only [h]
  · intro h
    rw [onPropertiesChanged_host_eq]
    simp only [h]

/-- C4 witness: a chassis notification carrying only an unrelated property,
and a notification on an unmonitored interface, both leave the store as it
was and request nothing. -/
theorem claim4_partial_notification_witness :
    onPropertiesChanged chassisIface [("OtherProp", "x")] sampleSt =
      ⟨sampleSt, [], none⟩ ∧
    onPropertiesChanged "org.example.Other" [(chassisState, chassisStateOn)] sampleSt =
      ⟨sampleSt, [], none⟩ :=
  ⟨(claim4_partial_notification sampleSt chassisIface [("OtherProp", "x")]).1 rfl,
    (claim4_partial_notification sampleSt "org.example.Other"
      [(chassisState, chassisStateOn)]).2.2 (by decide) (by decide)⟩

/-- C10: every single notification updates at most one stored field: a
chassis notification never changes the stored current host state, a host
notification never changes the stored current chassis state, and no
notification ever changes either expected state. -/
theorem claim10_notification_frame (s : PwrState) (iface : String)
    (data : List (String × String)) :
    (onPropertiesChanged iface data s).st.expectedChassisState = s.expectedChassisState ∧
    (onPropertiesChanged iface data s).st.expectedHostState = s.expectedHostState ∧
    (iface = chassisIface →
      (onPropertiesChanged iface data s).st.currentHostState = s.currentHostState) ∧
    (iface = hostIface →
      (onPropertiesChanged iface data s).st.currentChassisState = s.currentChassisState) ∧
    ((onPropertiesChanged iface data s).st.currentChassisState = s.currentChassisState ∨
      (onPropertiesChanged iface data s).st.currentHostState = s.currentHostState) := by
  have hne : chassisIface ≠ hostIface := by decide
  by_cases h1 : iface = chassisIface
  · subst h1
    cases hl : data.lookup chassisState with
    | some v => simp [onPropertiesChanged_chassis_eq, hl, hne]
    | none => simp [onPropertiesChanged_chassis_eq, hl]
  · by_cases h2 : iface = hostIface
    · subst h2
      cases hl : data.lookup hostState with
      | some v => simp [onPropertiesChanged_host_eq, hl, Ne.symm hne]
      | none => simp [onPropertiesChanged_host_eq, hl]
    · rw [onPropertiesChanged_other_eq iface data s h1 h2]
      simp

/-- C10 witness: a concrete chassis notification leaves both expected fields
and the current host state untouched. -/
theorem claim10_notification_frame_witness :
    (onPropertiesChanged chassisIface [(chassisState, chassisStateOn)]
      sampleSt).st.expectedChassisState = sampleSt.expectedChassisState ∧
    (onPropertiesChanged chassisIface [(chassisState, chassisStateOn)]
      sampleSt).st.currentHostState = sampleSt.currentHostState :=
  ⟨(claim10_notification_frame sampleSt chassisIface
      [(chassisState, chassisStateOn)]).1,
    (claim10_notification_frame sampleSt chassisIface
      [(chassisState, chassisStateOn)]).2.2.1 rfl⟩

theorem runAction_code {a : ActionKind} {s : PwrState} {c : Nat}
    (h : (runAction a s).exitCode = some c) : c = EXIT_SUCCESS := by
  cases a <;>
    simp only [runAction, switchHostPowerOn, switchHostPowerOff,
      switchChassisPowerOff, resetHostPower, showPowerStatus] at h <;>
    (try split_ifs at h) <;>
    cases h <;> rfl

def rebootGuardSt : PwrState := ⟨chassisStateOn, "", hostStateOn, ""⟩

/-- C1 counterexample: with the current chassis state equal to On — the
chassis component of reboot's expected target pair (On, On) — the reboot
action does not terminate the run: it installs the expected target and
issues a remote write, refuting the claim for the reboot operation. -/
theorem claim1_counterexample :
    rebootGuardSt.currentChassisState = chassisStateOn ∧
    (resetHostPower rebootGuardSt).st.expectedChassisState = chassisStateOn ∧
    (resetHostPower rebootGuardSt).exitCode = none ∧
    (resetHostPower rebootGuardSt).writes =
      [(hostPath, hostIface, hostTransition, hostTransitionReboot)] ∧
    (resetHostPower rebootGuardSt).st.expectedHostState ≠ "" :=
  ⟨rfl, rfl, rfl, rfl, by decide⟩

/-- C1 (amended): for power-on, hard power-off and graceful shutdown, when
the current chassis state already equals the chassis component of the
operation's expected target, the action terminates the run with success,
issues no remote write and installs no expected target.  For reboot the
shortcut instead fires when the chassis is Off — which differs from the
chassis component (On) of its expected target — and when the chassis equals
On the action proceeds to install the target and write. -/
theorem claim1_guard_amended (s : PwrState) :
    (s.currentChassisState = chassisStateOn →
      switchHostPowerOn s = ⟨s, [], ["System is already up."], some EXIT_SUCCESS⟩) ∧
    (s.currentChassisState = chassisStateOff →
      switchChassisPowerOff s = ⟨s, [], ["System is already down."], some EXIT_SUCCESS⟩) ∧
    (s.currentChassisState = chassisStateOff →
      switchHostPowerOff s = ⟨s, [], ["System is already down."], some EXIT_SUCCESS⟩) ∧
    (s.currentChassisState = chassisStateOff →
      resetHostPower s = ⟨s, [], ["Chassis is off, reboot is impossible."], some EXIT_SUCCESS⟩) ∧
    (s.currentChassisState = chassisStateOn →
      (resetHostPower s).exitCode = none ∧
      (resetHostPower s).writes =
        [(hostPath, hostIface, hostTransition, hostTransitionReboot)] ∧
      (resetHostPower s).st.expectedChassisState = chassisStateOn) := by
  refine ⟨?_, ?_, ?_, ?_, ?_⟩ <;> intro h
  · simp [switchHostPowerOn, h]
  · simp [switchChassisPowerOff, h]
  · simp [switchHostPowerOff, h]
  · simp [resetHostPower, h]
  · have hb : (s.currentChassisState != chassisStateOff) = true := by
      rw [h]; decide
    simp [resetHostPower, hb]

/-- C1 witness: with the chassis already On, power-on exits successfully
without writing, and reboot does not exit. -/
theorem claim1_guard_amended_witness :
    switchHostPowerOn ⟨chassisStateOn, "", hostStateOff, ""⟩ =
      ⟨⟨chassisStateOn, "", hostStateOff, ""⟩, [], ["System is already up."],
        some EXIT_SUCCESS⟩ ∧
    (resetHostPower ⟨chassisStateOn, "", hostStateOff, ""⟩).exitCode = none :=
  ⟨(claim1_guard_amended ⟨chassisStateOn, "", hostStateOff, ""⟩).1 rfl,
    ((claim1_guard_amended ⟨chassisStateOn, "", hostStateOff, ""⟩).2.2.2.2 rfl).1⟩

/-- C2 counterexample: a run of the status operation terminates with a
success outcome although no notification ever arrived and both current
states differ from both (empty, never installed) expected states. -/
theorem claim2_counterexample :
    runProgram ActionKind.status chassisStateOn hostStateOn [] =
      some (EXIT_SUCCESS, ⟨chassisStateOn, "", hostStateOn, ""⟩) ∧
    ¬ CompletionCond ⟨chassisStateOn, "", hostStateOn, ""⟩ :=
  ⟨rfl, fun h => h.1 rfl⟩

/-- C2 (amended): during event processing, loop termination with a success
outcome happens only at a notification, and at that moment both current
states equal both expected states with the expected target set; conversely a
notification carrying the property of interest requests success exactly when
the updated store satisfies that condition.  Success exits produced by the
deferred action itself — the guard shortcuts and the status query — occur
before any notification and are not subject to this condition. -/
theorem claim2_success_loop (s : PwrState) (events : List Event)
    (s' : PwrState) (e : Event) (data : List (String × String)) (v : String) :
    (runEvents s events = some (EXIT_SUCCESS, s') →
      CompletionCond s' ∧ ∃ iface d, Event.notify iface d ∈ events) ∧
    ((stepEvent s e).exitCode = some EXIT_SUCCESS →
      CompletionCond (stepEvent s e).st ∧ ∃ iface d, e = Event.notify iface d) ∧
    (data.lookup chassisState = some v →
      ((onPropertiesChanged chassisIface data s).exitCode = some EXIT_SUCCESS ↔
        CompletionCond (onPropertiesChanged chassisIface data s).st)) ∧
    (data.lookup hostState = some v →
      ((onPropertiesChanged hostIface data s).exitCode = some EXIT_SUCCESS ↔
        CompletionCond (onPropertiesChanged hostIface data s).st)) := by
  refine ⟨fun h => runEvents_success h, ?_,
    fun hl => onPropertiesChanged_chassis_iff data s v hl,
    fun hl => onPropertiesChanged_host_iff data s v hl⟩
  intro h
  cases e with
  | timerFire => simp [stepEvent, EXIT_FAILURE, EXIT_SUCCESS] at h
  | notify iface d =>
    exact ⟨onPropertiesChanged_success_completion h, iface, d, rfl⟩

/-- C2 witness: a concrete run that powers on from Off reaches success after
the two confirming notifications, with the completion condition holding at
termination; and a chassis notification that completes the store requests
success. -/
theorem claim2_success_loop_witness :
    (CompletionCond ⟨chassisStateOn, chassisStateOn, hostStateOn, hostStateOn⟩ ∧
      ∃ iface d, Event.notify iface d ∈
        [Event.notify chassisIface [(chassisState, chassisStateOn)],
          Event.notify hostIface [(hostState, hostStateOn)]]) ∧
    (onPropertiesChanged chassisIface [(chassisState, chassisStateOn)]
      ⟨chassisStateOff, chassisStateOn, hostStateOn, hostStateOn⟩).exitCode =
        some EXIT_SUCCESS :=
  ⟨(claim2_success_loop ⟨chassisStateOff, chassisStateOn, hostStateOff, hostStateOn⟩
      [Event.notify chassisIface [(chassisState, chassisStateOn)],
        Event.notify hostIface [(hostState, hostStateOn)]]
      ⟨chassisStateOn, chassisStateOn, hostStateOn, hostStateOn⟩
      Event.timerFire [] "").1 rfl,
    ((claim2_success_loop ⟨chassisStateOff, chassisStateOn, hostStateOn, hostStateOn⟩
      [] sampleSt Event.timerFire [(chassisState, chassisStateOn)] chassisStateOn).2.2.1
        rfl).mpr ⟨by decide, by decide, rfl, rfl⟩⟩

/-- C5: when no event has yet requested termination, the timer firing ends
the run with the failure code and a diagnostic naming the configured
30-second duration; the timer is the only loop event that can produce the
failure outcome — notifications and the deferred actions only ever request
success. -/
theorem claim5_timeout (s : PwrState) (events : List Event) (code : Nat)
    (s' : PwrState) (a : ActionKind) (iface : String)
    (data : List (String × String)) :
    (runEvents s events = none →
      runEvents s (events ++ [Event.timerFire]) =
        some (EXIT_FAILURE, foldEvents s events)) ∧
    EXIT_FAILURE ≠ EXIT_SUCCESS ∧
    (runEvents s events = some (code, s') → code ≠ EXIT_SUCCESS →
      code = EXIT_FAILURE ∧ Event.timerFire ∈ events) ∧
    (stepEvent s Event.timerFire).exitCode = some EXIT_FAILURE ∧
    (stepEvent s Event.timerFire).logs =
      ["Unable to confirm operation success within timeout period (" ++
        toString confirmationTime ++ " s)."] ∧
    confirmationTime = 30 ∧
    (onPropertiesChanged iface data s).exitCode ≠ some EXIT_FAILURE ∧
    (runAction a s).exitCode ≠ some EXIT_FAILURE := by
  refine ⟨fun h => runEvents_timeout h, by decide,
    fun h hne => runEvents_failure h hne, rfl, rfl, rfl, ?_, ?_⟩
  · intro h
    exact absurd (onPropertiesChanged_code h) (by decide)
  · intro h
    exact absurd (runAction_code h) (by decide)

/-- C5 witness: from a quiet run the appended timer event terminates with
failure, the timer event is in the event list of a failing run, and neither
a notification nor an action can request the failure code. -/
theorem claim5_timeout_witness :
    runEvents sampleSt [Event.timerFire] = some (EXIT_FAILURE, sampleSt) ∧
    Event.timerFire ∈ [Event.timerFire] ∧
    (onPropertiesChanged chassisIface [] sampleSt).exitCode ≠ some EXIT_FAILURE ∧
    (runAction ActionKind.status sampleSt).exitCode ≠ some EXIT_FAILURE :=
  ⟨(claim5_timeout sampleSt [] 0 sampleSt ActionKind.status chassisIface []).1 rfl,
    ((claim5_timeout sampleSt [Event.timerFire] EXIT_FAILURE sampleSt
      ActionKind.status chassisIface []).2.2.1 rfl (by decide)).2,
    (claim5_timeout sampleSt [] 0 sampleSt ActionKind.status chassisIface
      []).2.2.2.2.2.2.1,
    (claim5_timeout sampleSt [] 0 sampleSt ActionKind.status chassisIface
      []).2.2.2.2.2.2.2⟩

/-- C6: dispatch resolves each of the five operation names to exactly its
action and fails on every other string, in which case `main` prints usage
and exits with the failure code without starting the event loop; a wrong
argument count likewise yields usage and a failure exit. -/
theorem claim6_dispatch (command prog : String) (argv : List String) :
    (getAction "on" = some ActionKind.powerOn ∧
      getAction "off" = some ActionKind.chassisOff ∧
      getAction "soft" = some ActionKind.hostOff ∧
      getAction "reboot" = some ActionKind.hostReboot ∧
      getAction "status" = some ActionKind.status) ∧
    (command ∉ (["on", "off", "soft", "reboot", "status"] : List String) →
      getAction command = none) ∧
    (getAction command = none →
      mainDispatch [prog, command] = MainOutcome.usageFailure EXIT_FAILURE) ∧
    (argv.length ≠ 2 → mainDispatch argv = MainOutcome.usageFailure EXIT_FAILURE) := by
  refine ⟨⟨rfl, rfl, rfl, rfl, rfl⟩, ?_, ?_, ?_⟩
  · intro h
    simp only [List.mem_cons, List.not_mem_nil, or_false, not_or] at h
    obtain ⟨h1, h2, h3, h4, h5⟩ := h
    simp [getAction, h1, h2, h3, h4, h5]
  · intro h
    simp [mainDispatch, h]
  · intro h
    rcases argv with _ | ⟨a, _ | ⟨b, _ | ⟨c, t⟩⟩⟩
    · rfl
    · rfl
    · exact absurd rfl h
    · rfl

/-- C6 witness: the unknown operation name "bogus" fails dispatch and makes
`main` print usage and exit with the failure code, as does a missing
argument. -/
theorem claim6_dispatch_witness :
    getAction "bogus" = none ∧
    mainDispatch ["hostpwrctl", "bogus"] = MainOutcome.usageFailure EXIT_FAILURE ∧
    mainDispatch ["hostpwrctl"] = MainOutcome.usageFailure EXIT_FAILURE :=
  ⟨(claim6_dispatch "bogus" "hostpwrctl" []).2.1 (by decide),
    (claim6_dispatch "bogus" "hostpwrctl" []).2.2.1
      ((claim6_dispatch "bogus" "hostpwrctl" []).2.1 (by decide)),
    (claim6_dispatch "x" "y" ["hostpwrctl"]).2.2.2 (by decide)⟩

/-- C7: with the current chassis state not Off, the hard power-off installs
the expected target (Off, Off) and issues exactly one write setting the
chassis transition property to Off, while the graceful shutdown installs the
same target but issues its single write to the host transition property with
value Off. -/
theorem claim7_off_writes (s : PwrState)
    (h : s.currentChassisState ≠ chassisStateOff) :
    switchChassisPowerOff s =
      ⟨{ s with expectedHostState := hostStateOff, expectedChassisState := chassisStateOff },
        [(chassisPath, chassisIface, chassisTransition, chassisTransitionOff)],
        ["Shutdown signal was sent to chassis, waiting for system down."], none⟩ ∧
    switchHostPowerOff s =
      ⟨{ s with expectedHostState := hostStateOff, expectedChassisState := chassisStateOff },
        [(hostPath, hostIface, hostTransition, hostTransitionOff)],
        ["Shutdown signal was sent to host, waiting for system down."], none⟩ := by
  have hb : (s.currentChassisState != chassisStateOff) = true := bne_iff_ne.mpr h
  constructor <;> simp [switchChassisPowerOff, switchHostPowerOff, hb]

/-- C7 witness: from a powered-on chassis the hard power-off writes the
chassis transition and the graceful shutdown installs the Off target. -/
theorem claim7_off_writes_witness :
    (switchChassisPowerOff ⟨chassisStateOn, "", hostStateOn, ""⟩).writes =
      [(chassisPath, chassisIface, chassisTransition, chassisTransitionOff)] ∧
    (switchHostPowerOff ⟨chassisStateOn, "", hostStateOn, ""⟩).st.expectedChassisState =
      chassisStateOff :=
  ⟨by rw [(claim7_off_writes ⟨chassisStateOn, "", hostStateOn, ""⟩ (by decide)).1],
    by rw [(claim7_off_writes ⟨chassisStateOn, "", hostStateOn, ""⟩ (by decide)).2]⟩

/-- C8: a failed object-mapper lookup or a transport error in a remote call
never propagates to the caller: the error is logged and the call behaves as
if it had no effect — `getProperty` returns the empty string, `setProperty`
performs no effective write and returns normally — so the run continues and
only the timer can signal failure. -/
theorem claim8_error_swallowing (mapperCall : CallResult MapperReply)
    (getCall : CallResult String) (setCall : CallResult Unit) (msg : String) :
    getProperty (CallResult.err msg) getCall =
      ("", ["Error occurred during the object mapper call: " ++ msg]) ∧
    getProperty (CallResult.ok []) getCall = ("", []) ∧
    ((getService mapperCall).1 ≠ "" →
      getProperty mapperCall (CallResult.err msg) =
        ("", (getService mapperCall).2 ++
          ["Error occurred during get property request, " ++ msg])) ∧
    setProperty (CallResult.err msg) setCall =
      (false, ["Error occurred during the object mapper call: " ++ msg]) ∧
    setProperty (CallResult.ok []) setCall = (false, []) ∧
    ((getService mapperCall).1 ≠ "" →
      setProperty mapperCall (CallResult.err msg) =
        (false, (getService mapperCall).2 ++
          ["Error occurred during set property request, " ++ msg])) := by
  refine ⟨rfl, rfl, ?_, rfl, rfl, ?_⟩
  · intro h
    have hb : (getService mapperCall).1.isEmpty = false :=
      (string_isEmpty_false_iff _).mpr h
    simp [getProperty, hb]
  · intro h
    have hb : (getService mapperCall).1.isEmpty = false :=
      (string_isEmpty_false_iff _).mpr h
    simp [setProperty, hb]

/-- C8 witness: a transport error on a resolved service yields the empty
string plus a log line, and a mapper failure makes the setter a logged
no-op. -/
theorem claim8_error_swallowing_witness :
    getProperty (CallResult.ok [("svc", [chassisIface])]) (CallResult.err "timed out") =
      ("", ["Error occurred during get property request, timed out"]) ∧
    setProperty (CallResult.err "no mapper") (CallResult.ok ()) =
      (false, ["Error occurred during the object mapper call: no mapper"]) :=
  ⟨(claim8_error_swallowing (CallResult.ok [("svc", [chassisIface])])
      (CallResult.err "timed out") (CallResult.ok ()) "timed out").2.2.1 (by decide),
    (claim8_error_swallowing (CallResult.err "no mapper") (CallResult.ok "")
      (CallResult.ok ()) "no mapper").2.2.2.1⟩

end Hostpwrctl
